import Mathlib

/-!
Formal model of the BubblePop rhythm game (src/BubblePop.py and the more
evolved src/dist/bubblepop.app/Contents/Resources/bubblepop.py, which the
claims cite; where the two differ the dist variant is modelled).

Modelling conventions:
* Python floats are modelled as rationals (all arithmetic in the program is
  +, -, *, /, abs, min, max, floor on floats, which is exact real arithmetic
  here; no claim depends on rounding).
* Wall-clock reads (time.time()) are passed explicitly as a `now` parameter.
  The source may call time.time() several times inside one handler; the model
  uses a single `now` per handler invocation, i.e. time does not advance
  inside a handler.
* Python dict-based actions are modelled by a structure; keys that the
  program may omit are Option-valued.  Reading a key that can be absent
  (KeyError in Python) makes the modelled function Option-valued.
* Callbacks and terminate delegates are bound methods of the controller.
  At sprite level they are modelled as named constants (CbId) together with
  an interpretation `cbI : CbId → ℚ → Sprite → Sprite` giving their effect
  on the sprite they receive (the repository's delegates never mutate the
  sprite itself, only controller state, which is modelled separately).
* pygame surfaces (imgObj, imgBackup, context) carry no logic touched by the
  claims and are omitted from the sprite state; `draw` returns the blit
  request (image index, position, alpha) instead of drawing.
-/

set_option maxRecDepth 40000

namespace BubblePop

/-- Action identifiers: ACTION_POSITION, ACTION_ALPHA, ACTION_CALLBACK,
ACTION_TERMINATE, ACTION_SET_IMAGE. -/
inductive ActionKind where
  | position
  | alpha
  | callback
  | terminateA
  | setImage
deriving DecidableEq

/-- Names for the controller methods that the game installs as callback
functions / terminate delegates on sprite actions. -/
inductive CbId where
  | removeSpriteCb
  | removeFlasherCb
  | arrowMissCb
  | spriteAddBeatCb
  | hudArrowAddFlashCb
deriving DecidableEq

/-- One scheduled hit, parsed from a line of bubble_pop_arrow_timings.txt:
down time, up time (seconds since level start) and lane index. -/
structure Arrow where
  down : ℚ
  up : ℚ
  key : ℤ
deriving DecidableEq

/-- The `data` payload a sprite is constructed with: an arrow-timing dict for
gameplay arrows, the string "miss" (MISS_FLASHER_INDICATOR) for miss
flashers, the string "hud_arrow_flasher" for HUD flashers, or None. -/
inductive SpriteData where
  | noData
  | missData
  | hudData
  | arrowOf (a : Arrow)
deriving DecidableEq

/-- A normalized action as it sits in a sprite's queue, after queueAction
has filled in the default keys (start_time, blend, pos_origin, duration,
alpha_origin are always present from then on; the remaining keys are present
only when the caller supplied them). -/
structure NAction where
  kind : ActionKind
  startTime : ℚ
  duration : ℚ
  blend : Bool
  posOrigin : ℚ × ℚ
  alphaOrigin : ℚ
  posTarget : Option (ℚ × ℚ)
  alphaTarget : Option ℚ
  cbFunc : Option CbId
  delegate : Option CbId
  imgIdx : Option ℚ
deriving DecidableEq

/-- An action dictionary as passed into queueAction, before default keys are
added: every key the callers may omit is Option-valued. -/
structure AIn where
  kind : ActionKind
  startTime : Option ℚ
  duration : Option ℚ
  blend : Option Bool
  posTarget : Option (ℚ × ℚ)
  posOrigin : Option (ℚ × ℚ)
  alphaTarget : Option ℚ
  alphaOrigin : Option ℚ
  cbFunc : Option CbId
  delegate : Option CbId
  imgIdx : Option ℚ
deriving DecidableEq

/-- An input action of the given kind with every optional key absent. -/
def ainBase (k : ActionKind) : AIn :=
  ⟨k, none, none, none, none, none, none, none, none, none, none⟩

/-- BPSprite state: payload, position, current image index, action queue,
terminated flag, alpha.  (context/imgObj/imgBackup omitted, see header.) -/
structure Sprite where
  data : SpriteData
  pos : ℚ × ℚ
  curImg : ℚ
  actions : List NAction
  terminated : Bool
  alpha : ℚ
deriving DecidableEq

/-- BPSprite.__init__ with the default curImg = 0: empty queue, not
terminated, alpha 255. -/
def mkSprite (d : SpriteData) (pos : ℚ × ℚ) (curImg : ℚ) : Sprite :=
  ⟨d, pos, curImg, [], false, 255⟩

/-- Interpretation of callback / delegate identifiers as their effect on the
sprite passed to them (arguments: id, current wall-clock, the sprite). -/
def CbInterp : Type := CbId → ℚ → Sprite → Sprite

/-- The default-key normalization at the top of BPSprite.queueAction:
start_time defaults to time.time(), blend to False, pos_origin to the
sprite's current pos, duration to 0, alpha_origin to the current alpha. -/
def normalize (now : ℚ) (s : Sprite) (a : AIn) : NAction :=
  { kind := a.kind
    startTime := a.startTime.getD now
    duration := a.duration.getD 0
    blend := a.blend.getD false
    posOrigin := a.posOrigin.getD s.pos
    alphaOrigin := a.alphaOrigin.getD s.alpha
    posTarget := a.posTarget
    alphaTarget := a.alphaTarget
    cbFunc := a.cbFunc
    delegate := a.delegate
    imgIdx := a.imgIdx }

/-- The insertion loop of BPSprite.queueAction: the action is inserted
before the first queued action whose start_time strictly exceeds the new
action's start_time, and appended if there is none. -/
def insertSorted (a : NAction) : List NAction → List NAction
  | [] => [a]
  | b :: rest =>
      if a.startTime < b.startTime then a :: b :: rest
      else b :: insertSorted a rest

/-- BPSprite.queueAction: no-op on a terminated sprite, otherwise normalize
the defaults and insert in sorted order by start_time. -/
def queueAction (now : ℚ) (s : Sprite) (a : AIn) : Sprite :=
  if s.terminated = true then s
  else { s with actions := insertSorted (normalize now s a) s.actions }

/-- BPSprite.handleAction.  Option-valued: `none` models the KeyError that
Python raises when the action lacks the target key its kind needs
(pos_target / alpha_target / set_img_idx).  `self.actions.remove(action)`
removes the first queue entry equal to the action (dict value equality);
List.erase is a no-op when the element is absent where Python would raise
ValueError, a case the program never reaches. -/
def handleAction (cbI : CbInterp) (now : ℚ) (s : Sprite) (a : NAction) :
    Option Sprite :=
  if s.terminated = true then some s
  else
    let elapsed := now - a.startTime
    let percElapsed : ℚ := if a.duration = 0 then 100 else elapsed / a.duration
    let s1? : Option Sprite :=
      match a.kind with
      | ActionKind.position =>
          a.posTarget.map fun tgt =>
            let dx := tgt.1 - a.posOrigin.1
            let dy := tgt.2 - a.posOrigin.2
            let tx := a.posOrigin.1 + percElapsed * dx
            let ty := a.posOrigin.2 + percElapsed * dy
            { s with pos := (tx, ty) }
      | ActionKind.alpha =>
          a.alphaTarget.map fun tgt =>
            let delta := (tgt - a.alphaOrigin) * percElapsed
            { s with alpha := max (min (a.alphaOrigin + delta) 255) 0 }
      | ActionKind.callback =>
          some (match a.cbFunc with
            | some f => cbI f now s
            | none => s)
      | ActionKind.terminateA =>
          let s' := { s with terminated := true }
          some (match a.delegate with
            | some f => cbI f now s'
            | none => s')
      | ActionKind.setImage =>
          a.imgIdx.map fun idx => { s with curImg := idx }
    s1?.map fun s1 =>
      if (1 : ℚ) ≤ percElapsed then { s1 with actions := s1.actions.erase a }
      else s1

/-- The loop body of BPSprite.update: walk a snapshot (list(self.actions))
of the queue, and for each snapshot entry run handleAction when
`now ≥ start_time and (action == self.actions[0] or blend or terminate)`;
`self.actions[0]` is the head of the CURRENT queue, which earlier removals
in the same walk may have changed.  The second component collects the
snapshot entries that were passed to handleAction. -/
def updateRun (cbI : CbInterp) (now : ℚ) :
    Sprite → List NAction → Option (Sprite × List NAction)
  | s, [] => some (s, [])
  | s, a :: rest =>
      if a.startTime ≤ now ∧
          (s.actions.head? = some a ∨ a.blend = true ∨
            a.kind = ActionKind.terminateA) then
        match handleAction cbI now s a with
        | none => none
        | some s' =>
            match updateRun cbI now s' rest with
            | none => none
            | some (s'', ex) => some (s'', a :: ex)
      else updateRun cbI now s rest

/-- BPSprite.update with instrumentation: returns the final sprite and the
snapshot entries on which handleAction was invoked. -/
def updateEx (cbI : CbInterp) (now : ℚ) (s : Sprite) :
    Option (Sprite × List NAction) :=
  if s.terminated = true then some (s, [])
  else updateRun cbI now s s.actions

/-- BPSprite.update. -/
def update (cbI : CbInterp) (now : ℚ) (s : Sprite) : Option Sprite :=
  (updateEx cbI now s).map Prod.fst

/-- BPSprite.draw, modelled as the blit request it issues: image index,
position and alpha, or nothing for a terminated sprite. -/
def draw (s : Sprite) : Option (ℚ × (ℚ × ℚ) × ℚ) :=
  if s.terminated = true then none else some (s.curImg, s.pos, s.alpha)

/-- Callback interpretation that leaves the sprite unchanged (the behaviour
of removeSprite, removeFlasher and arrowMissDelegate on the sprite itself). -/
def cbNone : CbInterp := fun _ _ s => s

/-! BPGameplayController constants (values from the dist source; window size
from the context built in main()). -/

def KEYS : List ℤ := [106, 107, 105, 108]

def K_SPACE : ℤ := 32

def NUM_ARROW_STATES : ℕ := 3

def NUM_ARROW_TYPES : ℤ := 4

def IMG_ARROW_SIZE : ℚ × ℚ := (60, 60)

def HUD_ARROW_START_POS : ℚ × ℚ := (352, 50)

def ARROW_COLUMN_PAD : ℚ := 5

def ARROW_TIME_BOTTOM_TO_TOP : ℚ := 3

def ARROW_FADE_TIME : ℚ := 1/5

def HIT_THRESHOLDS : List ℚ := [1/20, 1/10, 3/20]

def HIT_FLASHER_FADE_TIME : ℚ := 1/4

def HIT_TEXT_FLASHER_SIZE : ℚ × ℚ := (81, 15)

def MISS_FLASHER_SIZE : ℚ × ℚ := (269, 49)

def MISS_FLASHER_Y : ℚ := 290

def MISS_FLASHER_FADE_TIME : ℚ := 1/2

def NUM_SCORE_DIGITS : ℕ := 6

def SCORE_VALUES : List ℤ := [10, 5, 1]

def windowSize : ℚ × ℚ := (960, 540)

/-- A keystroke recorded by recordKeys: down time and key index captured on
key-down; the up time is absent until the matching key-up arrives. -/
structure Keystroke where
  down : ℚ
  key : ℤ
  up : Option ℚ
deriving DecidableEq

/-- A pygame input event as consumed by the controller. -/
inductive Event where
  | keydown (key : ℤ)
  | keyup (key : ℤ)
  | other
deriving DecidableEq

/-- BPGameplayController state (image caches, scoreDigits and
hudArrowFlashers omitted: no claim touches them).  RECORDING_MODE is a
class-level constant in the source (False in the shipped game); it is made
a state field so that the recorder can be specified. -/
structure GState where
  recordingMode : Bool
  keystrokes : List Keystroke
  arrowData : List Arrow
  sprites : List Sprite
  flashers : List Sprite
  score : ℤ
  arrowType : ℤ
  beats : List ℚ
  curBeat : ℕ
  lastBeatTime : ℚ
  timeLevelStart : ℚ
deriving DecidableEq

/-- BPGameplayController.getKeyIndex: the index of the event's key in KEYS,
or -1 for a non-key event or an unmapped key. -/
def getKeyIndex (ev : Event) : ℤ :=
  match ev with
  | Event.keydown k => if k ∈ KEYS then (KEYS.indexOf k : ℤ) else -1
  | Event.keyup k => if k ∈ KEYS then (KEYS.indexOf k : ℤ) else -1
  | Event.other => -1

/-- BPGameplayController.getColPosX. -/
def getColPosX (col : ℤ) : ℚ :=
  HUD_ARROW_START_POS.1 + (col : ℚ) * IMG_ARROW_SIZE.1 +
    (col : ℚ) * ARROW_COLUMN_PAD

/-- BPGameplayController.recordKeys.  The KEY_QUIT_RECORDING branch writes
the keystroke list to the timing file; file output is outside the model, the
keystroke list itself is unchanged there. -/
def recordKeys (now : ℚ) (ev : Event) (st : GState) : GState :=
  if st.recordingMode = false then st
  else
    match ev with
    | Event.other => st
    | Event.keydown k =>
        if k = K_SPACE then st
        else
          let keyIndex := getKeyIndex (Event.keydown k)
          if 0 ≤ keyIndex then
            { st with keystrokes :=
                st.keystrokes ++ [⟨now - st.timeLevelStart, keyIndex, none⟩] }
          else st
    | Event.keyup k =>
        if k = K_SPACE then st
        else
          let keyIndex := getKeyIndex (Event.keyup k)
          if 0 ≤ keyIndex then
            let eventTime := now - st.timeLevelStart
            { st with keystrokes := st.keystrokes.map fun ks =>
                if ks.key = keyIndex ∧ ks.up = none then
                  { ks with up := some eventTime }
                else ks }
          else st

/-- BPGameplayController.spriteAddBeat, as its effect on the sprite it is
handed: queue NUM_ARROW_STATES blended SetImage actions (index
NUM_ARROW_STATES - i - 1 at time nextBeatTime - i * interval) and a blended
callback at nextBeatTime that repeats the process.
`self.beats[self.curBeat]` is modelled with getD (the game keeps curBeat
within bounds). -/
def spriteAddBeat (beats : List ℚ) (curBeat : ℕ)
    (lastBeatTime timeLevelStart now : ℚ) (sp : Sprite) : Sprite :=
  let interval : ℚ := (beats.getD curBeat 0 - lastBeatTime) / (NUM_ARROW_STATES : ℚ)
  let nextBeatTime := timeLevelStart + beats.getD curBeat 0
  let sp1 := (List.range NUM_ARROW_STATES).foldl (fun s i =>
    let idx : ℕ := NUM_ARROW_STATES - i - 1
    queueAction now s { ainBase ActionKind.setImage with
      imgIdx := some ((idx : ℚ))
      startTime := some (nextBeatTime - (i : ℚ) * interval)
      blend := some true }) sp
  queueAction now sp1 { ainBase ActionKind.callback with
    cbFunc := some CbId.spriteAddBeatCb
    startTime := some nextBeatTime
    blend := some true }

/-- BPGameplayController.removeSprite (the Terminate delegate of arrow
sprites): list.remove of the sprite from the active set. -/
def removeSprite (sp : Sprite) (st : GState) : GState :=
  { st with sprites := st.sprites.erase sp }

/-- BPGameplayController.removeFlasher (the Terminate delegate of flasher
sprites). -/
def removeFlasher (sp : Sprite) (st : GState) : GState :=
  { st with flashers := st.flashers.erase sp }

/-- The miss-cue sprite built by BPGameplayController.spawnMissFlasher:
data = MISS_FLASHER_INDICATOR, centred at MISS_FLASHER_Y, with a fade tween
and a terminate action queued. -/
def missCue (now : ℚ) : Sprite :=
  let sp0 := mkSprite SpriteData.missData
    (windowSize.1 / 2 - MISS_FLASHER_SIZE.1 / 2, MISS_FLASHER_Y) 0
  let sp1 := queueAction now sp0 { ainBase ActionKind.alpha with
    alphaTarget := some 0
    startTime := some now
    duration := some MISS_FLASHER_FADE_TIME }
  queueAction now sp1 { ainBase ActionKind.terminateA with
    delegate := some CbId.removeFlasherCb
    startTime := some (now + MISS_FLASHER_FADE_TIME) }

/-- BPGameplayController.spawnMissFlasher: append a fresh miss-cue sprite;
nothing is removed. -/
def spawnMissFlasher (now : ℚ) (st : GState) : GState :=
  { st with flashers := st.flashers ++ [missCue now] }

/-- BPGameplayController.arrowMissDelegate (installed as a Callback action
on every arrow): remove the sprite from the active set, then spawn a miss
cue. -/
def arrowMissDelegate (now : ℚ) (sp : Sprite) (st : GState) : GState :=
  spawnMissFlasher now { st with sprites := st.sprites.erase sp }

/-- The spark sprite built by BPGameplayController.spawnHitFlasher: at the
lane's HUD position, with a fade tween and a terminate action queued. -/
def hitSpark (now : ℚ) (col : ℤ) : Sprite :=
  let spark0 := mkSprite SpriteData.noData
    (getColPosX col, HUD_ARROW_START_POS.2) 0
  let spark1 := queueAction now spark0 { ainBase ActionKind.alpha with
    alphaTarget := some 0
    startTime := some now
    duration := some HIT_FLASHER_FADE_TIME }
  queueAction now spark1 { ainBase ActionKind.terminateA with
    delegate := some CbId.removeFlasherCb
    startTime := some (now + HIT_FLASHER_FADE_TIME) }

/-- The tier-text sprite built by BPGameplayController.spawnHitFlasher,
centred over the lane's HUD arrow.  The txtIdx argument selects the text
image, which carries no modelled state. -/
def hitTxt (now : ℚ) (col : ℤ) : Sprite :=
  let xOffset := (IMG_ARROW_SIZE.1 - HIT_TEXT_FLASHER_SIZE.1) / 2
  let yOffset := (IMG_ARROW_SIZE.2 - HIT_TEXT_FLASHER_SIZE.2) / 2
  let txt0 := mkSprite SpriteData.noData
    (getColPosX col + xOffset, HUD_ARROW_START_POS.2 + yOffset) 0
  let txt1 := queueAction now txt0 { ainBase ActionKind.alpha with
    alphaTarget := some 0
    startTime := some now
    duration := some HIT_FLASHER_FADE_TIME }
  queueAction now txt1 { ainBase ActionKind.terminateA with
    delegate := some CbId.removeFlasherCb
    startTime := some (now + HIT_FLASHER_FADE_TIME) }

/-- BPGameplayController.spawnHitFlasher: first drop every flasher whose
data is the miss indicator, then append the spark sprite and the tier-text
sprite. -/
def spawnHitFlasher (now : ℚ) (col : ℤ) (txtIdx : ℕ) (st : GState) : GState :=
  let _ := txtIdx
  let flashers1 := st.flashers.filter fun f => f.data ≠ SpriteData.missData
  { st with flashers := flashers1 ++ [hitSpark now col, hitTxt now col] }

/-- BPGameplayController.updateArrowTypes: cycle the arrow colour; the
imgObj reassignment on each sprite carries no modelled state. -/
def updateArrowTypes (st : GState) : GState :=
  { st with arrowType := (st.arrowType + 1) % NUM_ARROW_TYPES }

/-- BPGameplayController.spawnArrows: spawn every scheduled arrow whose
spawn time has arrived, with its travel tween, blended fade, blended miss
callback, terminate action and beat-pulse actions; keep the rest pending. -/
def spawnArrows (now : ℚ) (st : GState) : GState :=
  let imgHeight := IMG_ARROW_SIZE.2
  let windowHeight := windowSize.2
  let pixelsPerSecond := (windowHeight + imgHeight) / ARROW_TIME_BOTTOM_TO_TOP
  let secondsPerPixel := 1 / pixelsPerSecond
  let pixelsToHitZone := windowHeight - HUD_ARROW_START_POS.2
  let timeToHitZone := pixelsToHitZone * secondsPerPixel
  let curLevelTime := now - st.timeLevelStart
  let step : GState × List Arrow → Arrow → GState × List Arrow := fun acc arrow =>
    let spawnTime := arrow.down - timeToHitZone
    if spawnTime ≤ curLevelTime then
      let curKey := arrow.key
      let colPosX := getColPosX curKey
      let timeAdjustment := curLevelTime - spawnTime
      let duration := ARROW_TIME_BOTTOM_TO_TOP - timeAdjustment
      let startY := windowHeight - pixelsPerSecond * timeAdjustment
      let timeSinceLastBeat := curLevelTime - st.lastBeatTime
      let timeBetweenBeats := st.beats.getD st.curBeat 0 - st.lastBeatTime
      let curImg : ℚ :=
        ((((⌊timeSinceLastBeat / (timeBetweenBeats / (NUM_ARROW_STATES : ℚ))⌋ + 1)
          % (NUM_ARROW_STATES : ℤ)) : ℤ) : ℚ)
      let a0 := mkSprite (SpriteData.arrowOf arrow) (colPosX, startY) curImg
      let a1 := queueAction now a0 { ainBase ActionKind.position with
        posTarget := some (colPosX, -1 * imgHeight)
        duration := some duration }
      let a2 := queueAction now a1 { ainBase ActionKind.alpha with
        alphaTarget := some 0
        startTime := some (now + timeToHitZone)
        duration := some ARROW_FADE_TIME
        blend := some true }
      let a3 := queueAction now a2 { ainBase ActionKind.callback with
        cbFunc := some CbId.arrowMissCb
        startTime := some (now + timeToHitZone + HIT_THRESHOLDS.getD 2 0)
        blend := some true }
      let a4 := queueAction now a3 { ainBase ActionKind.terminateA with
        delegate := some CbId.removeSpriteCb
        startTime := some (now + duration) }
      let a5 := spriteAddBeat st.beats st.curBeat st.lastBeatTime
        st.timeLevelStart now a4
      ({ acc.1 with sprites := acc.1.sprites ++ [a5] }, acc.2)
    else (acc.1, acc.2 ++ [arrow])
  let res := st.arrowData.foldl step (st, [])
  { res.1 with arrowData := res.2 }

/-- The while-loop at the top of BPGameplayController.handleUpdate: advance
curBeat / lastBeatTime past every beat whose time has arrived, stopping at
the last beat index. -/
def beatAdvance (beats : List ℚ) (curBeat : ℕ) (lastBeatTime lvlTime : ℚ) :
    ℕ × ℚ :=
  if h : (curBeat : ℤ) < (beats.length : ℤ) - 1 ∧ beats.getD curBeat 0 ≤ lvlTime then
    beatAdvance beats (curBeat + 1) (beats.getD curBeat 0) lvlTime
  else (curBeat, lastBeatTime)
termination_by beats.length - curBeat
decreasing_by
  omega

/-- The threshold loop in BPGameplayController.handleEvent: scan the
threshold list in order and return the index of the first threshold th with
|delta| ≤ th, if any. -/
def hitScan (delta : ℚ) : List ℚ → Option ℕ
  | [] => none
  | th :: rest =>
      if |delta| ≤ th then some 0
      else (hitScan delta rest).map (· + 1)

/-- BPGameplayController.handleEvent.  Option-valued: `none` models the
TypeError Python raises when the head sprite's data payload is not an
arrow-timing dict (the gameplay queue only ever holds arrows). -/
def handleEvent (now : ℚ) (ev : Event) (st0 : GState) : Option GState :=
  let st := recordKeys now ev st0
  let curLevelTime := now - st.timeLevelStart
  let keyIndex := getKeyIndex ev
  match ev with
  | Event.keydown _ =>
      if 0 ≤ keyIndex ∧ st.sprites ≠ [] then
        match st.sprites with
        | [] => some st
        | sp :: rest =>
            match sp.data with
            | SpriteData.arrowOf arrow =>
                if arrow.key = keyIndex then
                  let delta := arrow.down - curLevelTime
                  match hitScan delta HIT_THRESHOLDS with
                  | some i =>
                      let st1 := { st with
                        score := min (st.score + SCORE_VALUES.getD i 0)
                          ((10 : ℤ) ^ NUM_SCORE_DIGITS - 1)
                        sprites := rest }
                      let txtIdx := if 2 ≤ i ∧ delta < 0 then i + 1 else i
                      some (updateArrowTypes (spawnHitFlasher now keyIndex txtIdx st1))
                  | none => some (spawnMissFlasher now st)
                else some (spawnMissFlasher now st)
            | _ => none
      else some st
  | _ => some st

/-! Concrete harness for the beat-pulse scenario of the spec: beat schedule
1.0 / 2.0 / 3.0 seconds, level started at wall-clock 0, one sprite that
received spriteAddBeat when it was created, ticked at chosen times.  Each
tick advances the beat indices first and then updates the sprite, exactly
as BPGameplayController.handleUpdate does; the callback action re-invokes
spriteAddBeat with the controller's current beat state. -/

def scenBeats : List ℚ := [1, 2, 3]

/-- Beat-synchronizer state of the scenario: beat indices plus the sprite. -/
structure ScenState where
  curBeat : ℕ
  lastBeatTime : ℚ
  sprite : Sprite
deriving DecidableEq

/-- Callback interpretation of the scenario: spriteAddBeatCb re-arms the
pulse from the controller's current beat state; other ids never occur. -/
def scenCbI (curBeat : ℕ) (lastBeatTime : ℚ) : CbInterp := fun f now sp =>
  match f with
  | CbId.spriteAddBeatCb => spriteAddBeat scenBeats curBeat lastBeatTime 0 now sp
  | _ => sp

/-- One frame of the scenario at wall-clock `now`: beat advance, then the
sprite's update. -/
def scenTick (c : ScenState) (now : ℚ) : Option ScenState :=
  let b := beatAdvance scenBeats c.curBeat c.lastBeatTime (now - 0)
  (update (scenCbI b.1 b.2) now c.sprite).map fun sp => ⟨b.1, b.2, sp⟩

/-- Run the scenario at the given tick times, recording curImg after every
tick. -/
def scenRun (c : ScenState) : List ℚ → Option (ScenState × List ℚ)
  | [] => some (c, [])
  | t :: ts =>
      match scenTick c t with
      | none => none
      | some c' =>
          match scenRun c' ts with
          | none => none
          | some (c'', tr) => some (c'', c'.sprite.curImg :: tr)

/-- Scenario start: an entity created before beat index 0 (curImg 99 marks
the not-yet-pulsed image) with the pulse armed at creation time 0. -/
def scenInit : ScenState :=
  ⟨0, 0, spriteAddBeat scenBeats 0 0 0 0 (mkSprite SpriteData.noData (0, 0) 99)⟩

/-! Specification vocabulary used by the theorems below. -/

/-- The progress ratio handleAction computes for an action at wall-clock
`now`: 100 when duration is 0, elapsed/duration otherwise. -/
def tweenRatio (now : ℚ) (a : NAction) : ℚ :=
  if a.duration = 0 then 100 else (now - a.startTime) / a.duration

/-- The gating condition of the update loop, relative to a fixed queue head:
the action is due and is the head, or is blended, or is a terminate. -/
def dueCond (now : ℚ) (h? : Option NAction) (a : NAction) : Bool :=
  decide (a.startTime ≤ now) &&
    (decide (h? = some a) || a.blend || decide (a.kind = ActionKind.terminateA))

/-- Well-formedness of a queued action relative to a tick time, as used to
specify update ticks during which no action completes: the action carries
the key its kind reads, is not a callback or terminate, and its (positive)
duration has not yet elapsed. -/
abbrev WFAction (now : ℚ) (a : NAction) : Prop :=
  (a.kind = ActionKind.position → a.posTarget.isSome) ∧
  (a.kind = ActionKind.alpha → a.alphaTarget.isSome) ∧
  (a.kind = ActionKind.setImage → a.imgIdx.isSome) ∧
  a.kind ≠ ActionKind.callback ∧ a.kind ≠ ActionKind.terminateA ∧
  0 < a.duration ∧ now < a.startTime + a.duration

/-- Queue sorted by ascending start time (non-decreasing). -/
abbrev ActionsSorted (l : List NAction) : Prop :=
  l.Pairwise fun x y => x.startTime ≤ y.startTime

/-- Default keystroke used with List.getD. -/
def kdef : Keystroke := ⟨0, 0, none⟩

/-! Concrete fixtures for witnesses and counterexamples. -/

/-- A duration-0 position tween from (0,0) to (1,0), due since time 0. -/
def cexPosAct : NAction :=
  ⟨ActionKind.position, 0, 0, false, (0, 0), 255, some (1, 0), none, none, none, none⟩

/-- A sprite at (0,0) holding only cexPosAct. -/
def cexPosSprite : Sprite :=
  ⟨SpriteData.noData, (0, 0), 0, [cexPosAct], false, 255⟩

/-- A non-blended duration-0 SetImage action (index 5), due since time 0. -/
def cexImgA : NAction :=
  ⟨ActionKind.setImage, 0, 0, false, (0, 0), 255, none, none, none, none, some 5⟩

/-- A non-blended duration-0 SetImage action (index 7), due since time 0. -/
def cexImgB : NAction :=
  ⟨ActionKind.setImage, 0, 0, false, (0, 0), 255, none, none, none, none, some 7⟩

/-- A sprite queued with the two SetImage actions. -/
def cexImgSprite : Sprite :=
  ⟨SpriteData.noData, (0, 0), 0, [cexImgA, cexImgB], false, 255⟩

/-- A position tween of duration 2 from (0,0) to (5,5), start 0, not
blended. -/
def witPosAct : NAction :=
  ⟨ActionKind.position, 0, 2, false, (0, 0), 255, some (5, 5), none, none, none, none⟩

/-- A blended alpha tween of duration 2 towards 0, start 0. -/
def witAlphaAct : NAction :=
  ⟨ActionKind.alpha, 0, 2, true, (0, 0), 255, none, some 0, none, none, none⟩

/-- A sprite queued with witPosAct then witAlphaAct. -/
def witSprite : Sprite :=
  ⟨SpriteData.noData, (0, 0), 0, [witPosAct, witAlphaAct], false, 255⟩

/-- A terminated sprite still holding a queued action. -/
def cexTermSprite : Sprite :=
  ⟨SpriteData.noData, (0, 0), 0, [cexImgA], true, 255⟩

/-- A scheduled hit at 5 seconds on lane 0. -/
def fixArrow : Arrow := ⟨5, 6, 0⟩

/-- A lane-0 arrow sprite whose queue still holds its terminate action
(start time 8, delegate removeSprite), as spawnArrows installs. -/
def fixArrowSprite : Sprite :=
  queueAction 2 (mkSprite (SpriteData.arrowOf fixArrow) (0, 0) 0)
    { ainBase ActionKind.terminateA with
      delegate := some CbId.removeSpriteCb
      startTime := some 8 }

/-- Gameplay state: not recording, the single arrow sprite active, score at
the 999999 cap, level started at wall-clock 0. -/
def cexSatState : GState :=
  ⟨false, [], [], [fixArrowSprite], [], 999999, 0, [1, 2, 3], 0, 0, 0⟩

/-- Gameplay state: as cexSatState but score 0. -/
def fixJudgeState : GState :=
  ⟨false, [], [], [fixArrowSprite], [], 0, 0, [1, 2, 3], 0, 0, 0⟩

/-- A miss cue currently displayed (a bare sprite carrying the miss
indicator). -/
def fixMissCue : Sprite := mkSprite SpriteData.missData (0, 0) 0

/-- A hit-spark cue currently displayed. -/
def fixHitCue : Sprite := mkSprite SpriteData.noData (1, 1) 0

/-- Gameplay state displaying one miss cue and one hit cue. -/
def cexFlasherState : GState :=
  ⟨false, [], [], [], [fixMissCue, fixHitCue], 0, 0, [], 0, 0, 0⟩

/-- Recording-session state with two open keystrokes for key index 0 (two
key-downs of K_j with no key-up in between), level started at wall-clock
0. -/
def cexRecState : GState :=
  ⟨true, [⟨1, 0, none⟩, ⟨2, 0, none⟩], [], [], [], 0, 0, [], 0, 0, 0⟩

/-- A concrete list of queueAction calls (wall-clock time paired with the
input action) used to witness the queue-order invariant. -/
def witCalls : List (ℚ × AIn) :=
  [(3, ainBase ActionKind.callback),
   (4, { ainBase ActionKind.setImage with imgIdx := some 1, startTime := some 2 }),
   (5, { ainBase ActionKind.setImage with imgIdx := some 4, startTime := some 2 })]

/-! Concrete building blocks of the beat-pulse scenario: the SetImage and
callback actions spriteAddBeat queues (blended, duration 0, origin defaults
from a fresh sprite at (0,0) with alpha 255), and the scenario states after
each tick. -/

/-- A blended SetImage pulse action with the given index and start time. -/
def sAct (idx t : ℚ) : NAction :=
  ⟨ActionKind.setImage, t, 0, true, (0, 0), 255, none, none, none, none, some idx⟩

/-- The blended repeat-callback pulse action with the given start time. -/
def cAct (t : ℚ) : NAction :=
  ⟨ActionKind.callback, t, 0, true, (0, 0), 255, none, none,
    some CbId.spriteAddBeatCb, none, none⟩

/-- The scenario sprite showing image `img` with queue `q`. -/
def scSprite (img : ℚ) (q : List NAction) : Sprite :=
  ⟨SpriteData.noData, (0, 0), img, q, false, 255⟩

/-- The scenario state at time 0 (pulse armed, nothing executed yet). -/
def scen0 : ScenState :=
  ⟨0, 0, scSprite 99 [sAct 0 (1/3), sAct 1 (2/3), sAct 2 1, cAct 1]⟩

/-- Scenario state after the tick at t = 1/3. -/
def scen1 : ScenState := ⟨0, 0, scSprite 0 [sAct 1 (2/3), sAct 2 1, cAct 1]⟩

/-- Scenario state after the tick at t = 2/3. -/
def scen2 : ScenState := ⟨0, 0, scSprite 1 [sAct 2 1, cAct 1]⟩

/-- Scenario state after the tick at t = 1 (beat 0 passed, pulse re-armed
for the interval up to beat 2.0). -/
def scen3 : ScenState :=
  ⟨1, 1, scSprite 2 [sAct 0 (4/3), sAct 1 (5/3), sAct 2 2, cAct 2]⟩

/-- Scenario state after the tick at t = 4/3. -/
def scen4 : ScenState := ⟨1, 1, scSprite 0 [sAct 1 (5/3), sAct 2 2, cAct 2]⟩

/-- Scenario state after the tick at t = 5/3. -/
def scen5 : ScenState := ⟨1, 1, scSprite 1 [sAct 2 2, cAct 2]⟩

/-- Scenario state after the tick at t = 2 (beat 1 passed, pulse re-armed
for the interval up to beat 3.0). -/
def scen6 : ScenState :=
  ⟨2, 2, scSprite 2 [sAct 0 (7/3), sAct 1 (8/3), sAct 2 3, cAct 3]⟩

/-! Theorems. -/

/-- C1 counterexample: a duration-0 position tween from (0,0) to (1,0)
executed at now = 1 ≥ startTime = 0 writes position (100, 0), not the
target (1, 0) that the claimed formula origin + clamp(t,0,1)·(target−origin)
with progress ratio 1 at duration 0 would give: handleAction uses ratio 100
(a percentage) when duration is 0 and never clamps the ratio. -/
theorem c1_counterexample :
    (handleAction cbNone 1 cexPosSprite cexPosAct).map Sprite.pos = some (100, 0) ∧
    ¬ (((100 : ℚ), (0 : ℚ)) = ((1 : ℚ), (0 : ℚ))) := by
  constructor
  · norm_num [handleAction, cbNone, cexPosSprite, cexPosAct]
  · norm_num

/-- C2 counterexample: with two due, non-blended, non-terminate duration-0
SetImage actions queued, a single update tick executes BOTH (both are
passed to handleAction, the second after the first completed and was
removed, making it the new head): the claim that at most one non-blended,
non-terminate action executes per tick fails. -/
theorem c2_counterexample :
    updateEx cbNone 1 cexImgSprite =
      some (⟨SpriteData.noData, (0, 0), 7, [], false, 255⟩, [cexImgA, cexImgB]) ∧
    cexImgA.blend = false ∧ cexImgA.kind ≠ ActionKind.terminateA ∧
    cexImgB.blend = false ∧ cexImgB.kind ≠ ActionKind.terminateA := by
  refine ⟨?_, rfl, by simp [cexImgA], rfl, by simp [cexImgB]⟩
  norm_num [updateEx, updateRun, handleAction, cbNone, cexImgSprite, cexImgA,
    cexImgB, List.erase_cons, beq_iff_eq, NAction.mk.injEq]

/-- C3 counterexample: at score 999999 (the cap), a perfect hit (delta 0,
tier 0, value 10) leaves the score at 999999: the tier value is NOT exactly
added — handleEvent saturates the sum at 10^6 − 1. -/
theorem c3_counterexample :
    cexSatState.score = 999999 ∧
    SCORE_VALUES.getD 0 0 = 10 ∧
    |fixArrow.down - (5 - cexSatState.timeLevelStart)| ≤ HIT_THRESHOLDS.getD 0 0 ∧
    (handleEvent 5 (Event.keydown 106) cexSatState).map GState.score = some 999999 ∧
    (999999 : ℤ) ≠ 999999 + 10 := by
  refine ⟨rfl, rfl, by norm_num [fixArrow, cexSatState, HIT_THRESHOLDS], ?_, by norm_num⟩
  norm_num [handleEvent, recordKeys, cexSatState, getKeyIndex, KEYS, hitScan,
    HIT_THRESHOLDS, fixArrowSprite, fixArrow, updateArrowTypes, spawnHitFlasher,
    SCORE_VALUES, NUM_SCORE_DIGITS, queueAction, mkSprite, normalize, insertSorted,
    ainBase]

/-- C5 counterexample: a successful hit judgment removes the head entity
from the active sprite set directly (sprites.pop(0)) while the entity's
terminated flag is still false and its Terminate action is still queued and
unexecuted: entities are not removed only via a Terminate action's delegate
callback. -/
theorem c5_counterexample :
    (handleEvent 5 (Event.keydown 106) fixJudgeState).map GState.sprites = some [] ∧
    fixJudgeState.sprites = [fixArrowSprite] ∧
    fixArrowSprite.terminated = false ∧
    fixArrowSprite.actions.map NAction.kind = [ActionKind.terminateA] := by
  refine ⟨?_, rfl, ?_, ?_⟩
  · norm_num [handleEvent, recordKeys, fixJudgeState, getKeyIndex, KEYS, hitScan,
      HIT_THRESHOLDS, fixArrowSprite, fixArrow, updateArrowTypes, spawnHitFlasher,
      SCORE_VALUES, NUM_SCORE_DIGITS, queueAction, mkSprite, normalize, insertSorted,
      ainBase]
  · norm_num [fixArrowSprite, queueAction, mkSprite, normalize, insertSorted, ainBase]
  · norm_num [fixArrowSprite, queueAction, mkSprite, normalize, insertSorted, ainBase]

/-- Helper: beatAdvance stops when the guard fails. -/
theorem beatAdvance_stop {beats : List ℚ} {cb : ℕ} {lbt t : ℚ}
    (h : ¬(((cb : ℤ) < (beats.length : ℤ) - 1) ∧ beats.getD cb 0 ≤ t)) :
    beatAdvance beats cb lbt t = (cb, lbt) := by
  rw [beatAdvance, dif_neg h]

/-- Helper: beatAdvance advances past a due beat. -/
theorem beatAdvance_step {beats : List ℚ} {cb : ℕ} {lbt t : ℚ}
    (h : ((cb : ℤ) < (beats.length : ℤ) - 1) ∧ beats.getD cb 0 ≤ t) :
    beatAdvance beats cb lbt t = beatAdvance beats (cb + 1) (beats.getD cb 0) t := by
  rw [beatAdvance, dif_pos h]

/-- Helper: the scenario start state evaluated to an explicit literal. -/
theorem scenInit_eval : scenInit = scen0 := by
  norm_num [scenInit, spriteAddBeat, scenBeats, queueAction, normalize, insertSorted,
    mkSprite, ainBase, NUM_ARROW_STATES, List.range, List.range.loop, sAct, cAct,
    scSprite, scen0, NAction.mk.injEq]

/-- Helper: the scenario tick at t = 0.66 — only the SetImage action with
index 0 (due since t = 1/3) has executed. -/
theorem scen_tick_cex : scenTick scen0 (66/100) = some scen1 := by
  have hb : beatAdvance scenBeats 0 0 (66/100 - 0) = (0, 0) :=
    beatAdvance_stop (by norm_num [scenBeats])
  simp only [scenTick, scen0, hb]
  norm_num [update, updateEx, updateRun, handleAction, scenCbI, scenBeats,
    queueAction, normalize, insertSorted, mkSprite, ainBase, NUM_ARROW_STATES,
    sAct, cAct, scSprite, scen0, scen1, List.erase_cons, beq_iff_eq, NAction.mk.injEq]

/-- Helper: the scenario tick at t = 1/3 shows image index 0. -/
theorem scen_tick_a : scenTick scen0 (1/3) = some scen1 := by
  have hb : beatAdvance scenBeats 0 0 (1/3 - 0) = (0, 0) :=
    beatAdvance_stop (by norm_num [scenBeats])
  simp only [scenTick, scen0, hb]
  norm_num [update, updateEx, updateRun, handleAction, scenCbI, scenBeats,
    queueAction, normalize, insertSorted, mkSprite, ainBase, NUM_ARROW_STATES,
    sAct, cAct, scSprite, scen0, scen1, List.erase_cons, beq_iff_eq, NAction.mk.injEq]

/-- Helper: the scenario tick at t = 2/3 shows image index 1. -/
theorem scen_tick_b : scenTick scen1 (2/3) = some scen2 := by
  have hb : beatAdvance scenBeats 0 0 (2/3 - 0) = (0, 0) :=
    beatAdvance_stop (by norm_num [scenBeats])
  simp only [scenTick, scen1, hb]
  norm_num [update, updateEx, updateRun, handleAction, scenCbI, scenBeats,
    queueAction, normalize, insertSorted, mkSprite, ainBase, NUM_ARROW_STATES,
    sAct, cAct, scSprite, scen1, scen2, List.erase_cons, beq_iff_eq, NAction.mk.injEq]

/-- Helper: the scenario tick at t = 1 shows image index 2 and re-arms the
pulse for the next inter-beat interval. -/
theorem scen_tick_c : scenTick scen2 1 = some scen3 := by
  have hb : beatAdvance scenBeats 0 0 ((1 : ℚ) - 0) = (1, 1) := by
    rw [beatAdvance_step (by norm_num [scenBeats]),
      beatAdvance_stop (by norm_num [scenBeats])]
    norm_num [scenBeats]
  simp only [scenTick, scen2, hb]
  norm_num [update, updateEx, updateRun, handleAction, scenCbI, spriteAddBeat,
    scenBeats, queueAction, normalize, insertSorted, mkSprite, ainBase,
    NUM_ARROW_STATES, List.range, List.range.loop, sAct, cAct, scSprite, scen2,
    scen3, List.erase_cons, beq_iff_eq, NAction.mk.injEq]

/-- Helper: the scenario tick at t = 4/3 shows image index 0 again. -/
theorem scen_tick_d : scenTick scen3 (4/3) = some scen4 := by
  have hb : beatAdvance scenBeats 1 1 (4/3 - 0) = (1, 1) :=
    beatAdvance_stop (by norm_num [scenBeats])
  simp only [scenTick, scen3, hb]
  norm_num [update, updateEx, updateRun, handleAction, scenCbI, scenBeats,
    queueAction, normalize, insertSorted, mkSprite, ainBase, NUM_ARROW_STATES,
    sAct, cAct, scSprite, scen3, scen4, List.erase_cons, beq_iff_eq, NAction.mk.injEq]

/-- Helper: the scenario tick at t = 5/3 shows image index 1. -/
theorem scen_tick_e : scenTick scen4 (5/3) = some scen5 := by
  have hb : beatAdvance scenBeats 1 1 (5/3 - 0) = (1, 1) :=
    beatAdvance_stop (by norm_num [scenBeats])
  simp only [scenTick, scen4, hb]
  norm_num [update, updateEx, updateRun, handleAction, scenCbI, scenBeats,
    queueAction, normalize, insertSorted, mkSprite, ainBase, NUM_ARROW_STATES,
    sAct, cAct, scSprite, scen4, scen5, List.erase_cons, beq_iff_eq, NAction.mk.injEq]

/-- Helper: the scenario tick at t = 2 shows image index 2 and re-arms the
pulse again. -/
theorem scen_tick_f : scenTick scen5 2 = some scen6 := by
  have hb : beatAdvance scenBeats 1 1 ((2 : ℚ) - 0) = (2, 2) := by
    rw [beatAdvance_step (by norm_num [scenBeats]),
      beatAdvance_stop (by norm_num [scenBeats])]
    norm_num [scenBeats]
  simp only [scenTick, scen5, hb]
  norm_num [update, updateEx, updateRun, handleAction, scenCbI, spriteAddBeat,
    scenBeats, queueAction, normalize, insertSorted, mkSprite, ainBase,
    NUM_ARROW_STATES, List.range, List.range.loop, sAct, cAct, scSprite, scen5,
    scen6, List.erase_cons, beq_iff_eq, NAction.mk.injEq]

/-- C6 counterexample: with beat schedule [1.0, 2.0, 3.0] and 3 fill
states, an entity created before beat index 0 shows image index 0 at
t = 0.66 — not index 2 as claimed: the pulse schedules index 2−i at
nextBeat − i·interval, so the displayed index counts up towards the beat. -/
theorem c6_counterexample :
    (scenRun scenInit [66/100]).map Prod.snd = some [0] ∧ ((0 : ℚ) ≠ 2) := by
  constructor
  · rw [scenInit_eval]
    simp only [scenRun, scen_tick_cex]
    norm_num [scen1, scSprite]
  · norm_num

/-- C6 amended: spriteAddBeat schedules, for i = 0,1,2, a blended SetImage
action with index 2−i at time nextBeat − i·interval (interval = one third
of the inter-beat gap) plus a blended repeat callback at the beat, so the
displayed index counts up through the interval; with beats [1.0, 2.0, 3.0]
the entity shows index 0 at t = 1/3, 1 at t = 2/3, 2 at t = 1.0, and after
the callback re-arms the pulse, 0 at t = 4/3, 1 at t = 5/3, 2 at t = 2.0. -/
theorem c6_beat_pulse :
    scenInit.sprite.actions.map (fun a => (a.kind, a.startTime, a.imgIdx, a.blend)) =
      [(ActionKind.setImage, 1/3, some 0, true),
       (ActionKind.setImage, 2/3, some 1, true),
       (ActionKind.setImage, 1, some 2, true),
       (ActionKind.callback, 1, none, true)] ∧
    (scenRun scenInit [1/3, 2/3, 1, 4/3, 5/3, 2]).map Prod.snd =
      some [0, 1, 2, 0, 1, 2] := by
  constructor
  · rw [scenInit_eval]
    norm_num [scen0, scSprite, sAct, cAct]
  · rw [scenInit_eval]
    simp only [scenRun, scen_tick_a, scen_tick_b, scen_tick_c, scen_tick_d,
      scen_tick_e, scen_tick_f]
    norm_num [scen1, scen2, scen3, scen4, scen5, scen6, scSprite]

/-- C7 counterexample: spawning a miss cue while a miss cue is already
displayed leaves two miss cues visible — spawnMissFlasher only appends and
cancels nothing (it is spawnHitFlasher that removes miss cues). -/
theorem c7_counterexample :
    cexFlasherState.flashers.map Sprite.data =
      [SpriteData.missData, SpriteData.noData] ∧
    (spawnMissFlasher 3 cexFlasherState).flashers.map Sprite.data =
      [SpriteData.missData, SpriteData.noData, SpriteData.missData] := by
  constructor
  · norm_num [cexFlasherState, fixMissCue, fixHitCue, mkSprite]
  · norm_num [spawnMissFlasher, missCue, cexFlasherState, fixMissCue, fixHitCue,
      mkSprite, queueAction, normalize, insertSorted, ainBase]

/-- C9 counterexample: with two open keystrokes for key index 0, the key-up
back-fills BOTH (the loop in recordKeys has no break), not just the most
recent one: the older keystroke at index 0 is also closed. -/
theorem c9_counterexample :
    cexRecState.keystrokes = [⟨1, 0, none⟩, ⟨2, 0, none⟩] ∧
    (recordKeys 5 (Event.keyup 106) cexRecState).keystrokes =
      [⟨1, 0, some 5⟩, ⟨2, 0, some 5⟩] := by
  constructor
  · rfl
  · norm_num [recordKeys, cexRecState, getKeyIndex, KEYS, K_SPACE]

/-- C10: once a sprite's terminated flag is set, draw emits nothing,
queueAction enqueues nothing, handleAction and update leave the sprite
untouched (so the flag is never cleared), and no queued action — callbacks
included — is ever passed to handleAction by update. -/
theorem c10_terminated_is_inert (cbI : CbInterp) (now : ℚ) (s : Sprite)
    (a : NAction) (b : AIn) (h : s.terminated = true) :
    draw s = none ∧ queueAction now s b = s ∧
    handleAction cbI now s a = some s ∧
    updateEx cbI now s = some (s, []) ∧ update cbI now s = some s := by
  refine ⟨?_, ?_, ?_, ?_, ?_⟩ <;>
    simp [draw, queueAction, handleAction, updateEx, update, h]

/-- C1 amended: a tween action executed at now ≥ startTime writes
origin + r·(target − origin), componentwise for position tweens, where
r = elapsed/duration when duration ≠ 0 and r = 100 when duration = 0 (the
ratio is NOT clamped to [0,1]); an alpha tween clamps the absolute result —
not the ratio — to [0, 255]. -/
theorem c1_tween_eval (cbI : CbInterp) (now : ℚ) (s : Sprite) (a : NAction)
    (hterm : s.terminated = false) (hdue : a.startTime ≤ now) :
    (∀ tgt, a.kind = ActionKind.position → a.posTarget = some tgt →
      ∃ s', handleAction cbI now s a = some s' ∧
        s'.pos = (a.posOrigin.1 + tweenRatio now a * (tgt.1 - a.posOrigin.1),
          a.posOrigin.2 + tweenRatio now a * (tgt.2 - a.posOrigin.2))) ∧
    (∀ tgt, a.kind = ActionKind.alpha → a.alphaTarget = some tgt →
      ∃ s', handleAction cbI now s a = some s' ∧
        s'.alpha =
          max (min (a.alphaOrigin + (tgt - a.alphaOrigin) * tweenRatio now a) 255) 0) := by
  have _ := hdue
  constructor
  · intro tgt hk ht
    simp only [handleAction, hterm, Bool.false_eq_true, if_false, hk, ht,
      Option.map_some']
    refine ⟨_, rfl, ?_⟩
    by_cases hd : a.duration = 0
    · norm_num [tweenRatio, hd]
    · simp only [tweenRatio, if_neg hd]
      split <;> simp
  · intro tgt hk ht
    simp only [handleAction, hterm, Bool.false_eq_true, if_false, hk, ht,
      Option.map_some']
    refine ⟨_, rfl, ?_⟩
    by_cases hd : a.duration = 0
    · norm_num [tweenRatio, hd]
    · simp only [tweenRatio, if_neg hd]
      split <;> simp

/-- C1 witness: the tween formula evaluated on a concrete position tween of
duration 2 sampled at its midpoint. -/
theorem c1_witness :
    (witSprite.terminated = false ∧ witPosAct.startTime ≤ 1) ∧
    (∃ s', handleAction cbNone 1 witSprite witPosAct = some s' ∧
      s'.pos = (witPosAct.posOrigin.1 +
          tweenRatio 1 witPosAct * ((5 : ℚ) - witPosAct.posOrigin.1),
        witPosAct.posOrigin.2 +
          tweenRatio 1 witPosAct * ((5 : ℚ) - witPosAct.posOrigin.2))) :=
  ⟨⟨rfl, by norm_num [witPosAct]⟩,
    (c1_tween_eval cbNone 1 witSprite witPosAct rfl
      (by norm_num [witPosAct])).1 (5, 5) rfl rfl⟩

/-- Helper: membership in the queueAction insertion. -/
theorem mem_insertSorted {x a : NAction} {l : List NAction} :
    x ∈ insertSorted a l ↔ x = a ∨ x ∈ l := by
  induction l with
  | nil => simp [insertSorted]
  | cons b rest ih =>
      simp only [insertSorted]
      split
      · simp [List.mem_cons]
      · simp [List.mem_cons, ih]
        tauto

/-- Helper: the queueAction insertion preserves the sort-by-startTime
invariant. -/
theorem insertSorted_sorted {a : NAction} {l : List NAction}
    (h : ActionsSorted l) : ActionsSorted (insertSorted a l) := by
  induction l with
  | nil => simp [insertSorted, ActionsSorted]
  | cons b rest ih =>
      rw [ActionsSorted, List.pairwise_cons] at h
      simp only [insertSorted]
      split
      · next hab =>
          rw [ActionsSorted, List.pairwise_cons]
          refine ⟨?_, List.pairwise_cons.mpr h⟩
          intro y hy
          rcases List.mem_cons.mp hy with hyb | hyr
          · exact hyb ▸ le_of_lt hab
          · exact (le_of_lt hab).trans (h.1 y hyr)
      · next hab =>
          have hba : b.startTime ≤ a.startTime := le_of_not_lt hab
          rw [ActionsSorted, List.pairwise_cons]
          refine ⟨?_, ih h.2⟩
          intro y hy
          rcases mem_insertSorted.mp hy with hya | hyr
          · exact hya ▸ hba
          · exact h.1 y hyr

/-- Helper: the insertion point is exactly the first index whose startTime
strictly exceeds the new action's, so equal start times keep insertion
order. -/
theorem insertSorted_eq_takeDrop (a : NAction) (l : List NAction) :
    insertSorted a l =
      l.takeWhile (fun b => !decide (a.startTime < b.startTime)) ++
        a :: l.dropWhile (fun b => !decide (a.startTime < b.startTime)) := by
  induction l with
  | nil => simp [insertSorted]
  | cons b rest ih =>
      by_cases hab : a.startTime < b.startTime
      · simp [insertSorted, List.takeWhile_cons, List.dropWhile_cons, hab]
      · simp [insertSorted, List.takeWhile_cons, List.dropWhile_cons, hab, ih]

/-- C4: after any sequence of queueAction calls on a sprite whose queue is
sorted, the queue remains non-decreasing in startTime; each call (on a
non-terminated sprite) inserts the normalized action at the first index
whose startTime strictly exceeds the new action's, i.e. after the longest
prefix of actions whose startTime does not exceed it — so equal startTimes
keep insertion order. -/
theorem c4_queue_sorted (s : Sprite) (h : ActionsSorted s.actions)
    (calls : List (ℚ × AIn)) :
    ActionsSorted ((calls.foldl (fun sp p => queueAction p.1 sp p.2) s).actions) ∧
    (∀ (now : ℚ) (sp : Sprite) (a : AIn), sp.terminated = false →
      (queueAction now sp a).actions =
        sp.actions.takeWhile
            (fun b => !decide ((normalize now sp a).startTime < b.startTime)) ++
          normalize now sp a ::
            sp.actions.dropWhile
              (fun b => !decide ((normalize now sp a).startTime < b.startTime))) := by
  constructor
  · induction calls generalizing s with
    | nil => exact h
    | cons p rest ih =>
        simp only [List.foldl_cons]
        apply ih
        unfold queueAction
        split
        · exact h
        · exact insertSorted_sorted h
  · intro now sp a hterm
    simp [queueAction, hterm, insertSorted_eq_takeDrop]

/-- C4 witness: the queue-order invariant on a concrete sprite and call
sequence. -/
theorem c4_witness :
    ActionsSorted witSprite.actions ∧
    ActionsSorted
      ((witCalls.foldl (fun sp p => queueAction p.1 sp p.2) witSprite).actions) :=
  ⟨by norm_num [witSprite, witPosAct, witAlphaAct, ActionsSorted,
      List.pairwise_cons],
    (c4_queue_sorted witSprite
      (by norm_num [witSprite, witPosAct, witAlphaAct, ActionsSorted,
        List.pairwise_cons]) witCalls).1⟩

/-- Helper: the hit spark keeps the payload None it was constructed with. -/
theorem hitSpark_data (now : ℚ) (col : ℤ) :
    (hitSpark now col).data = SpriteData.noData := by
  norm_num [hitSpark, queueAction, mkSprite, normalize, insertSorted, ainBase]

/-- Helper: the hit text cue keeps the payload None it was constructed
with. -/
theorem hitTxt_data (now : ℚ) (col : ℤ) :
    (hitTxt now col).data = SpriteData.noData := by
  norm_num [hitTxt, queueAction, mkSprite, normalize, insertSorted, ainBase]

/-- C7 amended: spawning a HIT cue removes every displayed miss cue and
keeps exactly the non-miss flashers (hit cues are untouched), appending the
new spark and text sprites; spawning a MISS cue cancels nothing — it only
appends the new miss sprite. -/
theorem c7_hit_clears_miss_cues (now : ℚ) (col : ℤ) (ti : ℕ) (st : GState) :
    (∀ f, f ∈ (spawnHitFlasher now col ti st).flashers ↔
      ((f ∈ st.flashers ∧ f.data ≠ SpriteData.missData) ∨
        f = hitSpark now col ∨ f = hitTxt now col)) ∧
    (∀ f, f ∈ st.flashers → f.data = SpriteData.missData →
      f ∉ (spawnHitFlasher now col ti st).flashers) ∧
    (spawnMissFlasher now st).flashers = st.flashers ++ [missCue now] := by
  refine ⟨?_, ?_, rfl⟩
  · intro f
    simp [spawnHitFlasher, List.mem_append, List.mem_filter, List.mem_cons,
      or_assoc]
  · intro f hf hdata hmem
    simp [spawnHitFlasher, List.mem_append, List.mem_filter, List.mem_cons,
      hdata] at hmem
    rcases hmem with h | h
    · rw [h, hitSpark_data] at hdata
      exact SpriteData.noConfusion hdata
    · rw [h, hitTxt_data] at hdata
      exact SpriteData.noConfusion hdata

/-- C7 witness: a concrete displayed miss cue is removed by spawning a hit
cue. -/
theorem c7_witness :
    (fixMissCue ∈ cexFlasherState.flashers ∧
      fixMissCue.data = SpriteData.missData) ∧
    fixMissCue ∉ (spawnHitFlasher 3 0 0 cexFlasherState).flashers :=
  ⟨⟨by simp [cexFlasherState], rfl⟩,
    (c7_hit_clears_miss_cues 3 0 0 cexFlasherState).2.1 fixMissCue
      (by simp [cexFlasherState]) rfl⟩

/-- C9 amended: during a recording session, a key-up for a mapped key
back-fills the release time of EVERY open keystroke for that key (each
recorded key-down for that key that lacks a release time gets the event
time), leaving keystrokes of other keys and already-closed keystrokes
unchanged. -/
theorem c9_keyup_backfills_all (now : ℚ) (κ : ℤ) (st : GState)
    (hrm : st.recordingMode = true) (hκ : κ ∈ KEYS) :
    (recordKeys now (Event.keyup κ) st).keystrokes.length =
      st.keystrokes.length ∧
    ∀ n, n < st.keystrokes.length →
      (((st.keystrokes.getD n kdef).key = getKeyIndex (Event.keyup κ) ∧
          (st.keystrokes.getD n kdef).up = none) →
        (recordKeys now (Event.keyup κ) st).keystrokes.getD n kdef =
          { st.keystrokes.getD n kdef with
              up := some (now - st.timeLevelStart) }) ∧
      (¬((st.keystrokes.getD n kdef).key = getKeyIndex (Event.keyup κ) ∧
          (st.keystrokes.getD n kdef).up = none) →
        (recordKeys now (Event.keyup κ) st).keystrokes.getD n kdef =
          st.keystrokes.getD n kdef) := by
  have hks : ¬(κ = K_SPACE) := by
    simp only [KEYS, List.mem_cons, List.not_mem_nil, or_false] at hκ
    rcases hκ with h | h | h | h <;> simp [h, K_SPACE]
  have hge : 0 ≤ getKeyIndex (Event.keyup κ) := by
    simp [getKeyIndex, hκ]
  have hrk : (recordKeys now (Event.keyup κ) st).keystrokes =
      st.keystrokes.map (fun ks =>
        if ks.key = getKeyIndex (Event.keyup κ) ∧ ks.up = none then
          { ks with up := some (now - st.timeLevelStart) }
        else ks) := by
    simp [recordKeys, hrm, hks, hge]
  refine ⟨by rw [hrk]; simp, ?_⟩
  intro n hn
  have hn' : st.keystrokes[n]? = some (st.keystrokes.getD n kdef) := by
    rw [List.getElem?_eq_getElem hn]
    congr 1
    rw [List.getD_eq_getElem?_getD, List.getElem?_eq_getElem hn]
    rfl
  constructor
  · intro hcond
    rw [hrk, List.getD_eq_getElem?_getD, List.getElem?_map, hn']
    simp only [Option.map_some', Option.getD_some]
    rw [if_pos hcond]
  · intro hcond
    rw [hrk, List.getD_eq_getElem?_getD, List.getElem?_map, hn']
    simp only [Option.map_some', Option.getD_some]
    rw [if_neg hcond]

/-- C9 witness: the back-fill characterization applied to the concrete
recording session with two open keystrokes. -/
theorem c9_witness :
    (cexRecState.recordingMode = true ∧ (106 : ℤ) ∈ KEYS) ∧
    (recordKeys 5 (Event.keyup 106) cexRecState).keystrokes.length =
      cexRecState.keystrokes.length :=
  ⟨⟨rfl, by norm_num [KEYS]⟩,
    (c9_keyup_backfills_all 5 106 cexRecState rfl (by norm_num [KEYS])).1⟩

/-- Helper: the recorder never touches the score. -/
theorem recordKeys_score (now : ℚ) (ev : Event) (st : GState) :
    (recordKeys now ev st).score = st.score := by
  unfold recordKeys
  (repeat' split) <;> simp [apply_ite]

/-- Helper: every score tier value read with getD is non-negative. -/
theorem scoreValues_nonneg (i : ℕ) : 0 ≤ SCORE_VALUES.getD i 0 := by
  match i with
  | 0 => norm_num [SCORE_VALUES]
  | 1 => norm_num [SCORE_VALUES]
  | 2 => norm_num [SCORE_VALUES]
  | n + 3 => norm_num [SCORE_VALUES, List.getD_eq_getElem?_getD]

/-- Helper: handleEvent either keeps the score or replaces it by
min (score + tier value) (10^6 − 1). -/
theorem handleEvent_score (now : ℚ) (ev : Event) (st st' : GState)
    (h : handleEvent now ev st = some st') :
    st'.score = st.score ∨
      ∃ i, st'.score = min (st.score + SCORE_VALUES.getD i 0)
        ((10 : ℤ) ^ NUM_SCORE_DIGITS - 1) := by
  cases ev with
  | keyup k =>
      left
      simp only [handleEvent, Option.some.injEq] at h
      rw [← h, recordKeys_score]
  | other =>
      left
      simp only [handleEvent, Option.some.injEq] at h
      rw [← h, recordKeys_score]
  | keydown k =>
      simp only [handleEvent] at h
      split at h
      · split at h
        · left
          rw [← Option.some.inj h, recordKeys_score]
        · split at h
          · split at h
            · split at h
              · rename_i i hscan
                right
                refine ⟨i, ?_⟩
                rw [← Option.some.inj h]
                simp [updateArrowTypes, spawnHitFlasher, recordKeys_score]
              · left
                rw [← Option.some.inj h]
                simp [spawnMissFlasher, recordKeys_score]
            · left
              rw [← Option.some.inj h]
              simp [spawnMissFlasher, recordKeys_score]
          · exact absurd h (by simp)
      · left
        rw [← Option.some.inj h, recordKeys_score]

/-- C8: the score is a non-negative integer saturating at 10^6 − 1 for the
6 score digits: from any state within bounds, any sequence of input events
(hits included, each adding its tier value through min with the cap,
silently) keeps 0 ≤ score ≤ 999999, so no sequence of maximum-tier hits
ever reaches 10^6. -/
theorem c8_score_saturates (st : GState) (h0 : 0 ≤ st.score)
    (h1 : st.score ≤ (10 : ℤ) ^ NUM_SCORE_DIGITS - 1) (evs : List (ℚ × Event))
    (st' : GState)
    (hrun : evs.foldlM (fun s p => handleEvent p.1 p.2 s) st = some st') :
    0 ≤ st'.score ∧ st'.score < (10 : ℤ) ^ NUM_SCORE_DIGITS := by
  induction evs generalizing st with
  | nil =>
      simp only [List.foldlM_nil, pure, Option.some.injEq] at hrun
      rw [← hrun]
      exact ⟨h0, by omega⟩
  | cons p rest ih =>
      rw [List.foldlM_cons] at hrun
      cases hse : handleEvent p.1 p.2 st with
      | none =>
          rw [hse] at hrun
          exact absurd hrun (by simp)
      | some s1 =>
          rw [hse] at hrun
          have hrun' : rest.foldlM (fun s p => handleEvent p.1 p.2 s) s1 =
              some st' := by simpa using hrun
          rcases handleEvent_score p.1 p.2 st s1 hse with heq | ⟨i, heq⟩
          · exact ih s1 (heq ▸ h0) (heq ▸ h1) hrun'
          · refine ih s1 ?_ ?_ hrun'
            · rw [heq]
              have := scoreValues_nonneg i
              have : 0 ≤ st.score + SCORE_VALUES.getD i 0 := by omega
              simp only [le_min_iff]
              constructor
              · exact this
              · norm_num [NUM_SCORE_DIGITS]
            · rw [heq]
              exact min_le_right _ _

/-- C8 witness: the bounds applied to a concrete state and event sequence. -/
theorem c8_witness :
    (0 ≤ fixJudgeState.score ∧
      fixJudgeState.score ≤ (10 : ℤ) ^ NUM_SCORE_DIGITS - 1) ∧
    (0 ≤ fixJudgeState.score ∧
      fixJudgeState.score < (10 : ℤ) ^ NUM_SCORE_DIGITS) :=
  ⟨⟨by norm_num [fixJudgeState], by norm_num [fixJudgeState, NUM_SCORE_DIGITS]⟩,
    c8_score_saturates fixJudgeState (by norm_num [fixJudgeState])
      (by norm_num [fixJudgeState, NUM_SCORE_DIGITS])
      [(5, Event.keydown 1)] fixJudgeState
      (by norm_num [List.foldlM_cons, List.foldlM_nil, handleEvent, recordKeys,
        fixJudgeState, getKeyIndex, KEYS])⟩

/-- Helper: a keydown on the lane of the head arrow that lands in tier i
reduces handleEvent to the explicit hit outcome: score saturating-add,
head popped, hit flashers spawned, arrow types cycled. -/
theorem handleEvent_hit (now : ℚ) (κ : ℤ) (st : GState) (sp : Sprite)
    (rest : List Sprite) (arrow : Arrow) (i : ℕ)
    (hrm : st.recordingMode = false)
    (hsp : st.sprites = sp :: rest)
    (hdata : sp.data = SpriteData.arrowOf arrow)
    (hki : getKeyIndex (Event.keydown κ) = arrow.key)
    (hge : 0 ≤ arrow.key)
    (hscan : hitScan (arrow.down - (now - st.timeLevelStart)) HIT_THRESHOLDS =
      some i) :
    handleEvent now (Event.keydown κ) st =
      some (updateArrowTypes (spawnHitFlasher now (getKeyIndex (Event.keydown κ))
        (if 2 ≤ i ∧ arrow.down - (now - st.timeLevelStart) < 0 then i + 1 else i)
        { st with
            score := min (st.score + SCORE_VALUES.getD i 0)
              ((10 : ℤ) ^ NUM_SCORE_DIGITS - 1)
            sprites := rest })) := by
  have hrk : recordKeys now (Event.keydown κ) st = st := by
    simp [recordKeys, hrm]
  simp [handleEvent, hrk, hsp, hdata, hki, hge, hscan]

/-- C3 amended: on key-down for a mapped lane matching the head arrow,
delta = scheduledHitTime − (now − levelStart) is tested against the
thresholds tightest-first; the first threshold with |delta| ≤ threshold
(closed interval) wins, the score becomes
min(score + that tier's value, 999999) — the tier value is added,
saturating at the 6-digit cap — and the head entity is removed. -/
theorem c3_judgment (now : ℚ) (κ : ℤ) (st : GState) (sp : Sprite)
    (rest : List Sprite) (arrow : Arrow)
    (hrm : st.recordingMode = false)
    (hsp : st.sprites = sp :: rest)
    (hdata : sp.data = SpriteData.arrowOf arrow)
    (hki : getKeyIndex (Event.keydown κ) = arrow.key)
    (hge : 0 ≤ arrow.key) :
    ∀ i : ℕ, i < 3 →
      (∀ j, j < i → HIT_THRESHOLDS.getD j 0 <
        |arrow.down - (now - st.timeLevelStart)|) →
      |arrow.down - (now - st.timeLevelStart)| ≤ HIT_THRESHOLDS.getD i 0 →
      ∃ st', handleEvent now (Event.keydown κ) st = some st' ∧
        st'.score = min (st.score + SCORE_VALUES.getD i 0)
          ((10 : ℤ) ^ NUM_SCORE_DIGITS - 1) ∧
        st'.sprites = rest := by
  intro i hi3 hlow hhit
  have hscan : hitScan (arrow.down - (now - st.timeLevelStart)) HIT_THRESHOLDS =
      some i := by
    interval_cases i
    · norm_num [HIT_THRESHOLDS] at hhit
      simp only [hitScan, HIT_THRESHOLDS]
      rw [if_pos hhit]
    · have h0 := hlow 0 (by norm_num)
      norm_num [HIT_THRESHOLDS] at hhit h0
      simp only [hitScan, HIT_THRESHOLDS]
      rw [if_neg (not_le.mpr h0), if_pos hhit]
      rfl
    · have h0 := hlow 0 (by norm_num)
      have h1 := hlow 1 (by norm_num)
      norm_num [HIT_THRESHOLDS] at hhit h0 h1
      simp only [hitScan, HIT_THRESHOLDS]
      rw [if_neg (not_le.mpr h0), if_neg (not_le.mpr h1), if_pos hhit]
      rfl
  rw [handleEvent_hit now κ st sp rest arrow i hrm hsp hdata hki hge hscan]
  exact ⟨_, rfl, by simp [updateArrowTypes, spawnHitFlasher],
    by simp [updateArrowTypes, spawnHitFlasher]⟩

/-- C3 witness: a lane-2-tier hit (|delta| = 0.07) on a concrete state
scores 5 and pops the head. -/
theorem c3_witness :
    (fixJudgeState.recordingMode = false ∧
      fixJudgeState.sprites = fixArrowSprite :: [] ∧
      fixArrowSprite.data = SpriteData.arrowOf fixArrow ∧
      getKeyIndex (Event.keydown 106) = fixArrow.key ∧
      (0 : ℤ) ≤ fixArrow.key ∧ (1 : ℕ) < 3 ∧
      (∀ j, j < 1 → HIT_THRESHOLDS.getD j 0 <
        |fixArrow.down - (493/100 - fixJudgeState.timeLevelStart)|) ∧
      |fixArrow.down - (493/100 - fixJudgeState.timeLevelStart)| ≤
        HIT_THRESHOLDS.getD 1 0) ∧
    (∃ st', handleEvent (493/100) (Event.keydown 106) fixJudgeState = some st' ∧
      st'.score = min (fixJudgeState.score + SCORE_VALUES.getD 1 0)
        ((10 : ℤ) ^ NUM_SCORE_DIGITS - 1) ∧
      st'.sprites = []) :=
  ⟨⟨rfl, rfl, rfl, by decide, by decide, by norm_num,
    fun j hj => by
      interval_cases j
      norm_num [HIT_THRESHOLDS, fixArrow, fixJudgeState, abs_of_pos],
    by norm_num [HIT_THRESHOLDS, fixArrow, fixJudgeState, abs_of_pos]⟩,
   c3_judgment (493/100) 106 fixJudgeState fixArrowSprite [] fixArrow rfl rfl rfl
     (by decide) (by decide) 1 (by norm_num)
     (fun j hj => by
       interval_cases j
       norm_num [HIT_THRESHOLDS, fixArrow, fixJudgeState, abs_of_pos])
     (by norm_num [HIT_THRESHOLDS, fixArrow, fixJudgeState, abs_of_pos])⟩

/-- Helper: a foldl whose step can only append to the sprite list of the
accumulator's first component in total only appends. -/
theorem foldl_sprites_append {α : Type}
    (f : GState × List Arrow → α → GState × List Arrow)
    (hf : ∀ acc a, ∃ d, (f acc a).1.sprites = acc.1.sprites ++ d) :
    ∀ (l : List α) (acc : GState × List Arrow),
      ∃ new, (l.foldl f acc).1.sprites = acc.1.sprites ++ new := by
  intro l
  induction l with
  | nil => exact fun acc => ⟨[], by simp⟩
  | cons a t ih =>
      intro acc
      rcases hf acc a with ⟨d, hd⟩
      rcases ih (f acc a) with ⟨new, hnew⟩
      exact ⟨d ++ new, by rw [List.foldl_cons, hnew, hd, List.append_assoc]⟩

/-- Helper: spawnArrows never removes sprites from the active set — it can
only append newly spawned arrows. -/
theorem spawnArrows_append (now : ℚ) (st : GState) :
    ∃ new, (spawnArrows now st).sprites = st.sprites ++ new := by
  simp only [spawnArrows]
  apply foldl_sprites_append
  intro acc arrow
  dsimp only
  split
  · exact ⟨_, rfl⟩
  · exact ⟨[], by simp⟩

/-- Helper: the recorder never touches the active sprite set. -/
theorem recordKeys_sprites (now : ℚ) (ev : Event) (st : GState) :
    (recordKeys now ev st).sprites = st.sprites := by
  unfold recordKeys
  (repeat' split) <;> simp [apply_ite]

/-- C5 amended: gameplay entities leave the active sprite set through three
operations, none of which requires a Terminate action to have executed on
the entity: a successful hit judgment pops the head directly, the scheduled
miss callback (arrowMissDelegate) removes the entity, and a Terminate
delegate (removeSprite) removes it; spawnArrows only appends, and the
feedback, arrow-type and recording operations never change the set. -/
theorem c5_entity_removal (now : ℚ) (κ : ℤ) (st : GState) (sp : Sprite)
    (rest : List Sprite) (arrow : Arrow) (i : ℕ)
    (hrm : st.recordingMode = false)
    (hsp : st.sprites = sp :: rest)
    (hdata : sp.data = SpriteData.arrowOf arrow)
    (hki : getKeyIndex (Event.keydown κ) = arrow.key)
    (hge : 0 ≤ arrow.key)
    (hscan : hitScan (arrow.down - (now - st.timeLevelStart)) HIT_THRESHOLDS =
      some i) :
    (∃ st', handleEvent now (Event.keydown κ) st = some st' ∧
      st'.sprites = rest) ∧
    (∀ (t : ℚ) (q : Sprite) (g : GState),
      (arrowMissDelegate t q g).sprites = g.sprites.erase q ∧
      (removeSprite q g).sprites = g.sprites.erase q) ∧
    (∀ (t : ℚ) (g : GState), ∃ new, (spawnArrows t g).sprites = g.sprites ++ new) ∧
    (∀ (t : ℚ) (g : GState) (ev : Event) (col : ℤ) (ti : ℕ),
      (spawnMissFlasher t g).sprites = g.sprites ∧
      (spawnHitFlasher t col ti g).sprites = g.sprites ∧
      (updateArrowTypes g).sprites = g.sprites ∧
      (recordKeys t ev g).sprites = g.sprites) := by
  refine ⟨?_, fun t q g => ⟨rfl, rfl⟩, fun t g => spawnArrows_append t g,
    fun t g ev col ti => ⟨rfl, rfl, rfl, recordKeys_sprites t ev g⟩⟩
  rw [handleEvent_hit now κ st sp rest arrow i hrm hsp hdata hki hge hscan]
  exact ⟨_, rfl, by simp [updateArrowTypes, spawnHitFlasher]⟩

/-- C5 witness: the removal inventory applied to the concrete hit. -/
theorem c5_witness :
    (fixJudgeState.recordingMode = false ∧
      hitScan (fixArrow.down - (5 - fixJudgeState.timeLevelStart))
        HIT_THRESHOLDS = some 0) ∧
    (∃ st', handleEvent 5 (Event.keydown 106) fixJudgeState = some st' ∧
      st'.sprites = []) :=
  ⟨⟨rfl, by norm_num [hitScan, HIT_THRESHOLDS, fixArrow, fixJudgeState]⟩,
    (c5_entity_removal 5 106 fixJudgeState fixArrowSprite [] fixArrow 0 rfl rfl
      rfl (by decide) (by decide)
      (by norm_num [hitScan, HIT_THRESHOLDS, fixArrow, fixJudgeState])).1⟩

/-- Helper: handleAction on a non-terminated sprite and a well-formed,
not-yet-complete tween or SetImage action succeeds and leaves queue and
terminated flag unchanged. -/
theorem handleAction_no_complete (cbI : CbInterp) (now : ℚ) (t : Sprite)
    (a : NAction) (ht : t.terminated = false) (hwf : WFAction now a) :
    ∃ t1, handleAction cbI now t a = some t1 ∧ t1.actions = t.actions ∧
      t1.terminated = false := by
  obtain ⟨hpos, halpha, himg, hcb, htm, hdur, hlt⟩ := hwf
  have hda : ¬ a.duration = 0 := ne_of_gt hdur
  have hperc : ¬ ((1 : ℚ) ≤ (now - a.startTime) / a.duration) := by
    rw [not_le, div_lt_one hdur]
    linarith
  cases hk : a.kind with
  | position =>
      obtain ⟨tgt, htgt⟩ := Option.isSome_iff_exists.mp (hpos hk)
      have heq : handleAction cbI now t a = some { t with pos :=
          (a.posOrigin.1 + (now - a.startTime) / a.duration * (tgt.1 - a.posOrigin.1),
           a.posOrigin.2 + (now - a.startTime) / a.duration *
             (tgt.2 - a.posOrigin.2)) } := by
        simp [handleAction, ht, hk, htgt, hda, hperc]
      exact ⟨_, heq, rfl, ht⟩
  | alpha =>
      obtain ⟨tgt, htgt⟩ := Option.isSome_iff_exists.mp (halpha hk)
      have heq : handleAction cbI now t a =
          some { t with alpha := max (min (a.alphaOrigin + (tgt - a.alphaOrigin) * ((now - a.startTime) / a.duration)) 255) 0 } := by
        simp [handleAction, ht, hk, htgt, hda, hperc]
      exact ⟨_, heq, rfl, ht⟩
  | setImage =>
      obtain ⟨idx, hidx⟩ := Option.isSome_iff_exists.mp (himg hk)
      have heq : handleAction cbI now t a = some { t with curImg := idx } := by
        simp [handleAction, ht, hk, hidx, hda, hperc]
      exact ⟨_, heq, rfl, ht⟩
  | callback => exact absurd hk hcb
  | terminateA => exact absurd hk htm

/-- Helper: an update walk during which no action completes (and no
callback or terminate is queued) executes exactly the snapshot entries that
are due and are the (unchanged) queue head or blended, and leaves the queue
unchanged. -/
theorem updateRun_no_complete (cbI : CbInterp) (now : ℚ) (A : List NAction)
    (l : List NAction) (hwf : ∀ a ∈ l, WFAction now a) :
    ∀ (t : Sprite), t.terminated = false → t.actions = A →
      ∃ t', updateRun cbI now t l = some (t', l.filter (dueCond now A.head?)) ∧
        t'.actions = A ∧ t'.terminated = false := by
  induction l with
  | nil => exact fun t ht hA => ⟨t, rfl, hA, ht⟩
  | cons a rest ih =>
      intro t ht hA
      have hwfa := hwf a (List.mem_cons_self a rest)
      have hwfr : ∀ x ∈ rest, WFAction now x :=
        fun x hx => hwf x (List.mem_cons_of_mem a hx)
      by_cases hc : a.startTime ≤ now ∧
          (t.actions.head? = some a ∨ a.blend = true ∨
            a.kind = ActionKind.terminateA)
      · have hdc : dueCond now A.head? a = true := by
          have hc' := hc
          rw [hA] at hc'
          simp only [dueCond, Bool.and_eq_true, Bool.or_eq_true,
            decide_eq_true_eq]
          tauto
        obtain ⟨t1, heq, hA1, ht1⟩ := handleAction_no_complete cbI now t a ht hwfa
        obtain ⟨t', hrun, hA', ht'⟩ := ih hwfr t1 ht1 (hA1.trans hA)
        refine ⟨t', ?_, hA', ht'⟩
        rw [updateRun, if_pos hc, heq]
        simp only [hrun, List.filter_cons_of_pos hdc]
      · have hdc : ¬ (dueCond now A.head? a = true) := by
          simp only [dueCond, Bool.and_eq_true, Bool.or_eq_true,
            decide_eq_true_eq]
          intro hcc
          apply hc
          rw [hA]
          tauto
        obtain ⟨t', hrun, hA', ht'⟩ := ih hwfr t ht hA
        refine ⟨t', ?_, hA', ht'⟩
        rw [updateRun, if_neg hc]
        simp only [hrun, List.filter_cons_of_neg hdc]

/-- Helper: among the executed actions of such a tick, those that are
non-blended all equal the fixed queue head, so on a duplicate-free queue at
most one non-blended action executes. -/
theorem filter_nonblend_le_one (now : ℚ) (A : List NAction) (hnd : A.Nodup)
    (hterm : ∀ a ∈ A, a.kind ≠ ActionKind.terminateA) :
    ((A.filter (dueCond now A.head?)).filter (fun a => !a.blend)).length ≤ 1 := by
  cases A with
  | nil => simp
  | cons h tA =>
      have hsub : (((h :: tA).filter (dueCond now (h :: tA).head?)).filter
          (fun a => !a.blend)).Sublist (h :: tA) :=
        (List.filter_sublist _).trans (List.filter_sublist _)
      have hall : ∀ x ∈ ((h :: tA).filter (dueCond now (h :: tA).head?)).filter
          (fun a => !a.blend), h = x := by
        intro x hx
        rw [List.mem_filter] at hx
        obtain ⟨hx1, hxb⟩ := hx
        rw [List.mem_filter] at hx1
        obtain ⟨hxl, hxp⟩ := hx1
        rw [Bool.not_eq_true'] at hxb
        simp only [dueCond, List.head?_cons, Bool.and_eq_true, Bool.or_eq_true,
          decide_eq_true_eq] at hxp
        rcases hxp.2 with (h1 | h2) | h3
        · exact Option.some.inj h1
        · rw [hxb] at h2
          exact Bool.noConfusion h2
        · exact absurd h3 (hterm x hxl)
      rw [← List.count_eq_length.mpr hall]
      calc (((h :: tA).filter (dueCond now (h :: tA).head?)).filter
            (fun a => !a.blend)).count h
          ≤ (h :: tA).count h := hsub.count_le h
        _ ≤ 1 := List.nodup_iff_count_le_one.mp hnd h

/-- C2 amended: during an update tick of a non-terminated sprite in which
no queued action completes (every queued action is a tween or SetImage of
positive duration not yet elapsed), an action executes iff it is due and is
the queue head or blended; the queue is unchanged and at most one
non-blended, non-terminate action (the head) executes.  In general the
head test is made against the CURRENT queue, so when an earlier action
completes and is removed mid-tick, the next action becomes head and may
execute too (see the counterexample). -/
theorem c2_update_gating (cbI : CbInterp) (now : ℚ) (s : Sprite)
    (hterm : s.terminated = false) (hnd : s.actions.Nodup)
    (hwf : ∀ a ∈ s.actions, WFAction now a) :
    ∃ s', updateEx cbI now s =
        some (s', s.actions.filter (dueCond now s.actions.head?)) ∧
      s'.actions = s.actions ∧
      ((s.actions.filter (dueCond now s.actions.head?)).filter
        (fun a => !a.blend)).length ≤ 1 := by
  obtain ⟨s', h1, h2, _⟩ :=
    updateRun_no_complete cbI now s.actions s.actions hwf s hterm rfl
  refine ⟨s', ?_, h2, ?_⟩
  · rw [updateEx, if_neg (by simp [hterm])]
    exact h1
  · exact filter_nonblend_le_one now s.actions hnd
      (fun a ha => (hwf a ha).2.2.2.2.1)

/-- C2 witness: the gating characterization on a concrete sprite holding a
non-blended position tween (the head) and a blended alpha tween, both due
and mid-flight at now = 1. -/
theorem c2_witness :
    (witSprite.terminated = false ∧ witSprite.actions.Nodup ∧
      ∀ a ∈ witSprite.actions, WFAction 1 a) ∧
    (∃ s', updateEx cbNone 1 witSprite =
        some (s', witSprite.actions.filter (dueCond 1 witSprite.actions.head?)) ∧
      s'.actions = witSprite.actions ∧
      ((witSprite.actions.filter (dueCond 1 witSprite.actions.head?)).filter
        (fun a => !a.blend)).length ≤ 1) :=
  ⟨⟨rfl, by simp [witSprite, witPosAct, witAlphaAct, List.nodup_cons],
    by norm_num [witSprite, witPosAct, witAlphaAct, WFAction]; decide⟩,
   c2_update_gating cbNone 1 witSprite rfl
     (by simp [witSprite, witPosAct, witAlphaAct, List.nodup_cons])
     (by norm_num [witSprite, witPosAct, witAlphaAct, WFAction]; decide)⟩

/-- C10 witness: the inertness of a concrete terminated sprite holding a
queued action. -/
theorem c10_witness :
    cexTermSprite.terminated = true ∧
    (draw cexTermSprite = none ∧
      queueAction 0 cexTermSprite (ainBase ActionKind.alpha) = cexTermSprite ∧
      handleAction cbNone 0 cexTermSprite cexImgA = some cexTermSprite ∧
      updateEx cbNone 0 cexTermSprite = some (cexTermSprite, []) ∧
      update cbNone 0 cexTermSprite = some cexTermSprite) :=
  ⟨rfl, c10_terminated_is_inert cbNone 0 cexTermSprite cexImgA
    (ainBase ActionKind.alpha) rfl⟩

end BubblePop
